import Mathlib

/-!
Shallow embedding of `src/lambda_function.py` (AudioTranscriptionSummarizer):
an AWS-Lambda-style orchestrator that parses an S3 upload event, fetches a
transcript, submits a summarization job to a RunPod-style job API, polls the
job until a terminal status, and writes the summary back to object storage.

External effects (HTTP calls, S3 reads/writes, sleeps) are modelled as
explicit inputs: the sequence of status-request outcomes is a function
`Nat → PollStep`, S3 and the submit endpoint are oracle functions in a
`SummarizerEnv`, and the polling loop returns how many status requests it
issued and how many fixed-interval sleeps it performed instead of actually
sleeping.  JSON values are modelled by an inductive `Json` (integers only for
numbers; the source never manipulates non-integer numbers).
-/

/-- JSON values as produced by `response.json()` and consumed by the handler.
Object fields are an association list; parsed Python dicts have unique keys
and lookup takes the first match. -/
inductive Json where
  | null : Json
  | bool (b : Bool) : Json
  | num (n : Int) : Json
  | str (s : String) : Json
  | arr (elems : List Json) : Json
  | obj (fields : List (String × Json)) : Json

/-- Python `v == s` for a string literal `s`: true exactly when `v` is a
string equal to `s` (cross-type `==` in Python is `False`). -/
def jsonEqStr (j : Json) (s : String) : Bool :=
  match j with
  | .str t => t = s
  | _ => false

/-- Python `type(x).__name__` for the modelled JSON values, used in
`AttributeError` / `TypeError` messages. -/
def typeName : Json → String
  | .null => "NoneType"
  | .bool _ => "bool"
  | .num _ => "int"
  | .str _ => "str"
  | .arr _ => "list"
  | .obj _ => "dict"

/-- Field lookup in a JSON object: Python `d[k]` / `k in d` on a parsed dict. -/
def jsonLookup (fields : List (String × Json)) (k : String) : Option Json :=
  match fields with
  | [] => none
  | (k', v) :: rest => if k' = k then some v else jsonLookup rest k

/-- Python `d.get(k, default)` on a parsed dict. -/
def jsonGetD (fields : List (String × Json)) (k : String) (default : Json) : Json :=
  match jsonLookup fields k with
  | some v => v
  | none => default

/-- One hex digit of `json.dumps`/`\uXXXX` escapes. -/
def hexDigit (n : Nat) : Char :=
  if n < 10 then Char.ofNat (48 + n) else Char.ofNat (87 + n)

/-- Four-digit lowercase hex, as in Python's `\uXXXX` escapes. -/
def hex4 (n : Nat) : String :=
  String.mk [hexDigit (n / 4096 % 16), hexDigit (n / 256 % 16),
             hexDigit (n / 16 % 16), hexDigit (n % 16)]

/-- `json.dumps` escaping of one character inside a string literal
(default `ensure_ascii=True`; characters beyond the BMP do not occur in the
claims and are escaped here by their code point). -/
def dumpsEscChar (c : Char) : String :=
  if c = '"' then "\\\""
  else if c = '\\' then "\\\\"
  else if c = '\n' then "\\n"
  else if c = '\t' then "\\t"
  else if c = '\r' then "\\r"
  else if c = '\x08' then "\\b"
  else if c = '\x0c' then "\\f"
  else if c.toNat < 32 ∨ c.toNat > 126 then "\\u" ++ hex4 c.toNat
  else String.mk [c]

/-- `json.dumps` of a string value. -/
def dumpsStr (s : String) : String :=
  "\"" ++ String.join (s.data.map dumpsEscChar) ++ "\""

mutual

/-- Python `json.dumps(v)` with default arguments (separators `", "` and
`": "`). -/
def dumps : Json → String
  | .null => "null"
  | .bool true => "true"
  | .bool false => "false"
  | .num n => toString n
  | .str s => dumpsStr s
  | .arr elems => "[" ++ String.intercalate ", " (dumpsList elems) ++ "]"
  | .obj fields => "\x7b" ++ String.intercalate ", " (dumpsFields fields) ++ "\x7d"

def dumpsList : List Json → List String
  | [] => []
  | v :: rest => dumps v :: dumpsList rest

def dumpsFields : List (String × Json) → List String
  | [] => []
  | (k, v) :: rest => (dumpsStr k ++ ": " ++ dumps v) :: dumpsFields rest

end

mutual

/-- Python `repr(v)` for the modelled JSON values, as used by `str()` on
containers (string escaping inside `repr` is elided: the claims never render
containers holding special characters). -/
def pyRepr : Json → String
  | .null => "None"
  | .bool true => "True"
  | .bool false => "False"
  | .num n => toString n
  | .str s => "\x27" ++ s ++ "\x27"
  | .arr elems => "[" ++ String.intercalate ", " (pyReprList elems) ++ "]"
  | .obj fields => "\x7b" ++ String.intercalate ", " (pyReprFields fields) ++ "\x7d"

def pyReprList : List Json → List String
  | [] => []
  | v :: rest => pyRepr v :: pyReprList rest

def pyReprFields : List (String × Json) → List String
  | [] => []
  | (k, v) :: rest => ("\x27" ++ k ++ "\x27: " ++ pyRepr v) :: pyReprFields rest

end

/-- Python `str(v)` / f-string interpolation of a JSON value. -/
def pyStr : Json → String
  | .str s => s
  | v => pyRepr v

/-- Python exceptions raised (or propagated) by the handler's stages. -/
inductive PyError where
  | valueError (msg : String) : PyError
  | keyError (key : String) : PyError
  | indexError (msg : String) : PyError
  | typeError (msg : String) : PyError
  | attributeError (msg : String) : PyError
  | timeoutError (msg : String) : PyError
  | exception (msg : String) : PyError
  | clientError (msg : String) : PyError
  | requestException (msg : String) : PyError
deriving DecidableEq, Repr

/-- Python `str(e)` of an exception: `KeyError` shows the repr of its key,
the rest show their message. -/
def pyErrStr : PyError → String
  | .keyError k => "\x27" ++ k ++ "\x27"
  | .valueError m => m
  | .indexError m => m
  | .typeError m => m
  | .attributeError m => m
  | .timeoutError m => m
  | .exception m => m
  | .clientError m => m
  | .requestException m => m

/-! ## Polling state machine (`poll_runpod_job`, lines 152-203)

Each loop iteration issues one HTTP status request.  The environment's answer
to the request issued on attempt `n` (0-based) is `steps n`: either a
transport-level failure (`requests.exceptions.RequestException`, which the
loop's `except` clause catches, sleeping and continuing) or a parsed JSON
body.  The result records the outcome together with how many status requests
were issued and how many `time.sleep(POLLING_INTERVAL)` calls ran. -/

/-- Outcome of one status request: transport failure (connection error, or a
bad HTTP status via `raise_for_status`) or a successfully parsed JSON body. -/
inductive PollStep where
  | transportError : PollStep
  | response (body : Json) : PollStep

/-- How the polling loop ends. -/
inductive PollOutcome where
  /-- `return` with a value (the branches of the `COMPLETED` case). -/
  | returned (v : Json) : PollOutcome
  /-- `raise Exception(f"Runpod job failed: {error_message}")`; carries the
  error detail `result.get("error", "Unknown error")`. -/
  | jobFailed (detail : Json) : PollOutcome
  /-- `raise TimeoutError(...)` after the loop exhausts all attempts. -/
  | timedOut : PollOutcome
  /-- an uncaught Python error escaping the loop (e.g. `AttributeError`
  from `.get` on a non-dict). -/
  | pyError (e : PyError) : PollOutcome

/-- Result of a polling run: outcome plus the number of status requests
issued and the number of fixed-interval sleeps performed. -/
structure PollResult where
  outcome : PollOutcome
  requests : Nat
  sleeps : Nat

/-- The `status == "COMPLETED"` branch (lines 177-185): extract
`output = result.get("output", {})`; a dict containing `"text"` yields
`output["text"]`; a bare string yields itself; a dict without `"text"`
yields `output.get("text", json.dumps(output))`, i.e. the serialization of
the whole output; any other type raises `AttributeError` at `.get`. -/
def handleCompleted (fields : List (String × Json)) : PollOutcome :=
  let output := jsonGetD fields "output" (Json.obj [])
  match output with
  | Json.obj outFields =>
      match jsonLookup outFields "text" with
      | some t => .returned t
      | none => .returned (.str (dumps output))
  | Json.str s => .returned (.str s)
  | other =>
      .pyError (.attributeError
        ("\x27" ++ typeName other ++ "\x27 object has no attribute \x27get\x27"))

/-- The `status == "FAILED"` branch (lines 187-189): the error detail is
`result.get("error", "Unknown error")`. -/
def failedDetail (fields : List (String × Json)) : Json :=
  jsonGetD fields "error" (Json.str "Unknown error")

/-- The `for attempt in range(MAX_POLLING_ATTEMPTS)` loop, by recursion on
the remaining attempts (`remaining = MAX_POLLING_ATTEMPTS - attempt`).
On a transport error: count the request, sleep, continue.  On a JSON body:
a non-dict body raises `AttributeError` at `result.get("status", "")`
(uncaught — no sleep); `COMPLETED` and `FAILED` return/raise immediately
with no sleep; any other status sleeps and continues.  Exhausting the
attempts raises `TimeoutError`. -/
def pollLoop (steps : Nat → PollStep) : Nat → Nat → PollResult
  | _, 0 => ⟨.timedOut, 0, 0⟩
  | attempt, remaining + 1 =>
      match steps attempt with
      | .transportError =>
          let r := pollLoop steps (attempt + 1) remaining
          ⟨r.outcome, r.requests + 1, r.sleeps + 1⟩
      | .response (Json.obj fields) =>
          let status := jsonGetD fields "status" (Json.str "")
          if jsonEqStr status "COMPLETED" then
            ⟨handleCompleted fields, 1, 0⟩
          else if jsonEqStr status "FAILED" then
            ⟨.jobFailed (failedDetail fields), 1, 0⟩
          else
            let r := pollLoop steps (attempt + 1) remaining
            ⟨r.outcome, r.requests + 1, r.sleeps + 1⟩
      | .response other =>
          ⟨.pyError (.attributeError
            ("\x27" ++ typeName other ++ "\x27 object has no attribute \x27get\x27")),
           1, 0⟩

/-- `poll_runpod_job` under attempt budget `maxAttempts`
(`MAX_POLLING_ATTEMPTS`), with the status-request outcomes given by
`steps`. -/
def poll_runpod_job (steps : Nat → PollStep) (maxAttempts : Nat) : PollResult :=
  pollLoop steps 0 maxAttempts

/-- A status body that keeps the loop going: `{"status": "RUNNING"}`. -/
def runningBody : Json :=
  Json.obj [("status", Json.str "RUNNING")]

/-- A `COMPLETED` status body with the given `output` field. -/
def completedBody (output : Json) : Json :=
  Json.obj [("status", Json.str "COMPLETED"), ("output", output)]

/-- A step neither terminal nor escaping: a transport error, or a JSON
object whose status is neither `"COMPLETED"` nor `"FAILED"`.  The loop
sleeps and moves to the next attempt exactly on such steps. -/
def isNonTerminalStep : PollStep → Bool
  | .transportError => true
  | .response (Json.obj fields) =>
      let status := jsonGetD fields "status" (Json.str "")
      !(jsonEqStr status "COMPLETED") && !(jsonEqStr status "FAILED")
  | .response _ => false

/-- Unfolding lemma: on a non-terminal step the loop issues the request,
sleeps once, and recurses into the next attempt. -/
theorem pollLoop_nonterminal_step (steps : Nat → PollStep) (a r : Nat)
    (h : isNonTerminalStep (steps a) = true) :
    pollLoop steps a (r + 1) =
      ⟨(pollLoop steps (a + 1) r).outcome,
       (pollLoop steps (a + 1) r).requests + 1,
       (pollLoop steps (a + 1) r).sleeps + 1⟩ := by
  cases hs : steps a with
  | transportError => simp [pollLoop, hs]
  | response body =>
    rw [hs] at h
    cases body with
    | obj fields =>
      rw [isNonTerminalStep.eq_def] at h
      simp only [Bool.and_eq_true, Bool.not_eq_true'] at h
      simp [pollLoop, hs, h.1, h.2]
    | null => exact absurd h (by rw [isNonTerminalStep.eq_def]; simp)
    | bool b => exact absurd h (by rw [isNonTerminalStep.eq_def]; simp)
    | num n => exact absurd h (by rw [isNonTerminalStep.eq_def]; simp)
    | str s => exact absurd h (by rw [isNonTerminalStep.eq_def]; simp)
    | arr elems => exact absurd h (by rw [isNonTerminalStep.eq_def]; simp)

/-- A run whose first `i` attempts are all non-terminal behaves like the run
starting at attempt `i` with `i` fewer remaining attempts, plus `i` status
requests and `i` sleeps. -/
theorem pollLoop_nonterminal_prefix (steps : Nat → PollStep) :
    ∀ (i a r : Nat), (∀ j, j < i → isNonTerminalStep (steps (a + j)) = true) →
    i ≤ r →
    pollLoop steps a r =
      ⟨(pollLoop steps (a + i) (r - i)).outcome,
       (pollLoop steps (a + i) (r - i)).requests + i,
       (pollLoop steps (a + i) (r - i)).sleeps + i⟩ := by
  intro i
  induction i with
  | zero => intro a r _ _; simp
  | succ i ih =>
    intro a r hpre hle
    obtain ⟨r', rfl⟩ : ∃ r', r = r' + 1 := ⟨r - 1, by omega⟩
    have h0 : isNonTerminalStep (steps a) = true := by
      have := hpre 0 (by omega)
      simpa using this
    rw [pollLoop_nonterminal_step steps a r' h0]
    have hpre' : ∀ j, j < i → isNonTerminalStep (steps (a + 1 + j)) = true := by
      intro j hj
      have := hpre (j + 1) (by omega)
      have harr : a + 1 + j = a + (j + 1) := by omega
      rw [harr]
      exact this
    rw [ih (a + 1) r' hpre' (by omega)]
    have h1 : a + 1 + i = a + (i + 1) := by omega
    have h2 : r' - i = r' + 1 - (i + 1) := by omega
    rw [h1, h2]
    simp [Nat.add_assoc]

/-- C1: with attempt budget `N ≥ 1` and every status request answering a
non-terminal `RUNNING` body, `poll_runpod_job` raises `TimeoutError`
(`PollingTimeoutError`) after exactly `N` status requests and `N` sleeps —
one fixed-interval sleep after every attempt, the last included. -/
theorem poll_always_running_times_out (steps : Nat → PollStep) (N : Nat)
    (hN : 1 ≤ N) (hrun : ∀ n, steps n = PollStep.response runningBody) :
    poll_runpod_job steps N = ⟨.timedOut, N, N⟩ := by
  have hpre : ∀ j, j < N → isNonTerminalStep (steps (0 + j)) = true := by
    intro j hj
    rw [hrun (0 + j)]
    decide
  have h := pollLoop_nonterminal_prefix steps N 0 N hpre (le_refl N)
  rw [poll_runpod_job, h]
  simp [Nat.sub_self, pollLoop]

/-- C1 witness: budget 3, always `RUNNING`: timeout after 3 requests and
3 sleeps. -/
theorem poll_always_running_times_out_witness :
    poll_runpod_job (fun _ => PollStep.response runningBody) 3 =
      ⟨.timedOut, 3, 3⟩ :=
  poll_always_running_times_out (fun _ => PollStep.response runningBody) 3
    (by decide) (fun _ => rfl)

/-- The status sequence `[RUNNING, RUNNING, COMPLETED]` with the completed
response carrying output `{"text": "X"}`. -/
def c2Steps : Nat → PollStep := fun n =>
  if n < 2 then PollStep.response runningBody
  else PollStep.response (completedBody (Json.obj [("text", Json.str "X")]))

/-- C2: on `[RUNNING, RUNNING, COMPLETED]` with output `{"text": "X"}`,
any budget `N ≥ 3` yields the summary `"X"` after exactly 3 status requests
and 2 sleeps: `COMPLETED` returns immediately, with no sleep and without
consuming the remaining budget. -/
theorem poll_sequence_completes_third_attempt (N : Nat) (hN : 3 ≤ N) :
    poll_runpod_job c2Steps N = ⟨.returned (Json.str "X"), 3, 2⟩ := by
  have hpre : ∀ j, j < 2 → isNonTerminalStep (c2Steps (0 + j)) = true := by
    intro j hj
    have hc : c2Steps (0 + j) = PollStep.response runningBody := by
      unfold c2Steps
      rw [if_pos (by omega)]
    rw [hc]
    decide
  have h := pollLoop_nonterminal_prefix c2Steps 2 0 N hpre (by omega)
  rw [poll_runpod_job, h]
  obtain ⟨m, rfl⟩ : ∃ m, N = m + 3 := ⟨N - 3, by omega⟩
  have hstep : pollLoop c2Steps (0 + 2) (m + 3 - 2) =
      ⟨.returned (Json.str "X"), 1, 0⟩ := by
    have h2 : m + 3 - 2 = m + 1 := by omega
    rw [Nat.zero_add, h2]
    rfl
  rw [hstep]

/-- C2 witness: with budget exactly 3 the run returns `"X"` after 3 requests
and 2 sleeps. -/
theorem poll_sequence_completes_third_attempt_witness :
    poll_runpod_job c2Steps 3 = ⟨.returned (Json.str "X"), 3, 2⟩ :=
  poll_sequence_completes_third_attempt 3 (by decide)

/-- C3: if the first `i` attempts are non-terminal and attempt `i` answers a
body whose status is `FAILED`, the loop raises the job-failed exception
immediately, carrying `result.get("error", "Unknown error")` as the detail,
after exactly `i + 1` status requests and `i` sleeps (no sleep on the
failing attempt, no further requests). -/
theorem poll_failed_raises_immediately (steps : Nat → PollStep) (N i : Nat)
    (fields : List (String × Json))
    (hiN : i < N)
    (hpre : ∀ j, j < i → isNonTerminalStep (steps j) = true)
    (hi : steps i = PollStep.response (Json.obj fields))
    (hst : jsonGetD fields "status" (Json.str "") = Json.str "FAILED") :
    poll_runpod_job steps N =
      ⟨.jobFailed (jsonGetD fields "error" (Json.str "Unknown error")), i + 1, i⟩ := by
  have hpre0 : ∀ j, j < i → isNonTerminalStep (steps (0 + j)) = true := by
    intro j hj
    rw [Nat.zero_add]
    exact hpre j hj
  have h := pollLoop_nonterminal_prefix steps i 0 N hpre0 (by omega)
  rw [poll_runpod_job, h]
  obtain ⟨m, hm⟩ : ∃ m, N - i = m + 1 := ⟨N - i - 1, by omega⟩
  rw [Nat.zero_add, hm]
  have hstep : pollLoop steps i (m + 1) = ⟨.jobFailed (failedDetail fields), 1, 0⟩ := by
    simp only [pollLoop, hi, hst]
    simp [jsonEqStr]
  rw [hstep]
  simp [failedDetail, Nat.add_comm]

/-- The status sequence `[RUNNING, FAILED(error: "boom")]`. -/
def c3Steps : Nat → PollStep := fun n =>
  if n = 0 then PollStep.response runningBody
  else PollStep.response (Json.obj [("status", Json.str "FAILED"), ("error", Json.str "boom")])

/-- C3 witness: `FAILED` with error `"boom"` on the second attempt (after one
`RUNNING`) raises the job-failed exception with detail `"boom"` after 2
requests and 1 sleep. -/
theorem poll_failed_raises_immediately_witness :
    poll_runpod_job c3Steps 3 = ⟨.jobFailed (Json.str "boom"), 2, 1⟩ :=
  poll_failed_raises_immediately c3Steps 3 1
    [("status", Json.str "FAILED"), ("error", Json.str "boom")]
    (by omega)
    (by intro j hj
        have hj0 : j = 0 := by omega
        subst hj0
        decide)
    rfl rfl

/-- C5: a transport-level failure on a status request consumes one bounded
attempt — the loop sleeps the fixed interval and proceeds to the next
attempt — so a run in which every attempt fails at transport level raises
`TimeoutError` after the full budget of `N` attempts (and `N` sleeps). -/
theorem poll_transport_error_consumes_attempt (steps : Nat → PollStep) (N : Nat) :
    (∀ a r, steps a = PollStep.transportError →
      pollLoop steps a (r + 1) =
        ⟨(pollLoop steps (a + 1) r).outcome,
         (pollLoop steps (a + 1) r).requests + 1,
         (pollLoop steps (a + 1) r).sleeps + 1⟩) ∧
    ((∀ n, steps n = PollStep.transportError) →
      poll_runpod_job steps N = ⟨.timedOut, N, N⟩) := by
  constructor
  · intro a r ha
    exact pollLoop_nonterminal_step steps a r (by rw [ha]; rfl)
  · intro hall
    have hpre : ∀ j, j < N → isNonTerminalStep (steps (0 + j)) = true := by
      intro j hj
      rw [hall (0 + j)]
      rfl
    have h := pollLoop_nonterminal_prefix steps N 0 N hpre (le_refl N)
    rw [poll_runpod_job, h]
    simp [Nat.sub_self, pollLoop]

/-- C5 witness: with budget 3 and every status request failing at transport
level, the run times out after 3 requests and 3 sleeps. -/
theorem poll_transport_error_consumes_attempt_witness :
    poll_runpod_job (fun _ => PollStep.transportError) 3 = ⟨.timedOut, 3, 3⟩ :=
  (poll_transport_error_consumes_attempt (fun _ => PollStep.transportError) 3).2
    (fun _ => rfl)

/-- If the very first status request answers a body whose status is
`COMPLETED`, the run ends at once with the `COMPLETED` branch's outcome:
one request, no sleep. -/
theorem pollLoop_completed_first (steps : Nat → PollStep) (N : Nat) (hN : 1 ≤ N)
    (fields : List (String × Json))
    (h0 : steps 0 = PollStep.response (Json.obj fields))
    (hst : jsonEqStr (jsonGetD fields "status" (Json.str "")) "COMPLETED" = true) :
    poll_runpod_job steps N = ⟨handleCompleted fields, 1, 0⟩ := by
  obtain ⟨m, rfl⟩ : ∃ m, N = m + 1 := ⟨N - 1, by omega⟩
  rw [poll_runpod_job]
  simp only [pollLoop, h0]
  simp [hst]

/-- C4: on a `COMPLETED` status response, `poll_runpod_job` returns the
output's `text` field when the output is a mapping containing `"text"`; the
output itself when it is a bare string; and `json.dumps` of the whole output
when it is a mapping without `"text"`. -/
theorem poll_completed_output_shapes (steps : Nat → PollStep) (N : Nat)
    (hN : 1 ≤ N) :
    (∀ outFields t,
        steps 0 = PollStep.response (completedBody (Json.obj outFields)) →
        jsonLookup outFields "text" = some t →
        poll_runpod_job steps N = ⟨.returned t, 1, 0⟩) ∧
    (∀ s,
        steps 0 = PollStep.response (completedBody (Json.str s)) →
        poll_runpod_job steps N = ⟨.returned (Json.str s), 1, 0⟩) ∧
    (∀ outFields,
        steps 0 = PollStep.response (completedBody (Json.obj outFields)) →
        jsonLookup outFields "text" = none →
        poll_runpod_job steps N =
          ⟨.returned (Json.str (dumps (Json.obj outFields))), 1, 0⟩) := by
  refine ⟨fun outFields t h0 htext => ?_, fun s h0 => ?_, fun outFields h0 htext => ?_⟩
  · rw [pollLoop_completed_first steps N hN _ h0 rfl]
    simp [handleCompleted, jsonGetD, jsonLookup, htext]
  · rw [pollLoop_completed_first steps N hN _ h0 rfl]
    simp [handleCompleted, jsonGetD, jsonLookup]
  · rw [pollLoop_completed_first steps N hN _ h0 rfl]
    simp [handleCompleted, jsonGetD, jsonLookup, htext]

/-- C4 witness: a `COMPLETED` response with output `{"text": "X"}` under
budget 1 yields `"X"` after one request and no sleep. -/
theorem poll_completed_output_shapes_witness :
    poll_runpod_job
      (fun _ => PollStep.response (completedBody (Json.obj [("text", Json.str "X")]))) 1 =
      ⟨.returned (Json.str "X"), 1, 0⟩ :=
  (poll_completed_output_shapes
      (fun _ => PollStep.response (completedBody (Json.obj [("text", Json.str "X")]))) 1
      (by decide)).1
    [("text", Json.str "X")] (Json.str "X") rfl rfl

/-- Whether a JSON value is a Python dict or str — the only output shapes
the `COMPLETED` branch handles without raising. -/
def isDictOrStr : Json → Bool
  | .obj _ => true
  | .str _ => true
  | _ => false

/-- C10: a `COMPLETED` response whose `output` field is present but neither
a mapping nor a string makes the fallback branch call `.get` on it and raise
`AttributeError` (no summary text is returned); only when the `output` field
is entirely absent does the fallback serialize the empty-mapping default and
return `"{}"`. -/
theorem poll_completed_nonmapping_output (steps : Nat → PollStep) (N : Nat)
    (hN : 1 ≤ N) :
    (∀ out,
        steps 0 = PollStep.response (completedBody out) →
        isDictOrStr out = false →
        poll_runpod_job steps N =
          ⟨.pyError (.attributeError
             ("\x27" ++ typeName out ++ "\x27 object has no attribute \x27get\x27")),
           1, 0⟩) ∧
    (∀ fields,
        steps 0 = PollStep.response (Json.obj fields) →
        jsonEqStr (jsonGetD fields "status" (Json.str "")) "COMPLETED" = true →
        jsonLookup fields "output" = none →
        poll_runpod_job steps N = ⟨.returned (Json.str "\x7b\x7d"), 1, 0⟩) := by
  constructor
  · intro out h0 hshape
    rw [pollLoop_completed_first steps N hN _ h0 rfl]
    cases out with
    | null => simp [handleCompleted, jsonGetD, jsonLookup, typeName]
    | bool b => simp [handleCompleted, jsonGetD, jsonLookup, typeName]
    | num n => simp [handleCompleted, jsonGetD, jsonLookup, typeName]
    | arr elems => simp [handleCompleted, jsonGetD, jsonLookup, typeName]
    | str s => exact absurd hshape (by simp [isDictOrStr])
    | obj f => exact absurd hshape (by simp [isDictOrStr])
  · intro fields h0 hst hout
    rw [pollLoop_completed_first steps N hN fields h0 hst]
    simp only [handleCompleted, jsonGetD, hout]
    rfl

/-- C10 witness: output `[]` (a JSON list) raises `AttributeError`; and a
`COMPLETED` body with no `output` field returns the serialized empty
mapping. -/
theorem poll_completed_nonmapping_output_witness :
    poll_runpod_job (fun _ => PollStep.response (completedBody (Json.arr []))) 1 =
      ⟨.pyError (.attributeError
         "\x27list\x27 object has no attribute \x27get\x27"), 1, 0⟩ ∧
    poll_runpod_job
        (fun _ => PollStep.response (Json.obj [("status", Json.str "COMPLETED")])) 1 =
      ⟨.returned (Json.str "\x7b\x7d"), 1, 0⟩ :=
  ⟨(poll_completed_nonmapping_output
      (fun _ => PollStep.response (completedBody (Json.arr []))) 1 (by decide)).1
      (Json.arr []) rfl rfl,
   (poll_completed_nonmapping_output
      (fun _ => PollStep.response (Json.obj [("status", Json.str "COMPLETED")])) 1
      (by decide)).2
      [("status", Json.str "COMPLETED")] rfl rfl rfl⟩

/-! ## Output-key derivation (`generate_output_key`, lines 206-218) -/

/-- Python `input_key.rsplit('.', 1)[0] if '.' in input_key else input_key`:
everything before the last `'.'`, or the whole key when it has none. -/
def stripLastExt (s : List Char) : List Char :=
  if '.' ∈ s then (((s.reverse).dropWhile (· != '.')).tail).reverse else s

/-- `generate_output_key`: `f"summaries/{base_name}_summary.txt"` over the
stripped base name. -/
def generate_output_key (input_key : String) : String :=
  "summaries/" ++ String.mk (stripLastExt input_key.data) ++ "_summary.txt"

/-- `dropWhile` walks through a prefix every element of which satisfies the
predicate. -/
theorem dropWhile_append_all {α : Type} (p : α → Bool) (l₁ l₂ : List α)
    (h : ∀ x ∈ l₁, p x = true) :
    List.dropWhile p (l₁ ++ l₂) = List.dropWhile p l₂ := by
  induction l₁ with
  | nil => simp
  | cons a t ih =>
    simp only [List.cons_append]
    rw [List.dropWhile_cons_of_pos (h a (by simp))]
    exact ih (fun x hx => h x (by simp [hx]))

/-- Stripping the extension of a key whose final `'.'`-delimited segment is
`b` leaves everything before that last dot. -/
theorem stripLastExt_dotted (a b : List Char) (hb : '.' ∉ b) :
    stripLastExt (a ++ '.' :: b) = a := by
  rw [stripLastExt, if_pos (by simp)]
  rw [List.reverse_append, List.reverse_cons, List.append_assoc,
      List.singleton_append]
  rw [dropWhile_append_all _ b.reverse _ ?all]
  · rw [List.dropWhile_cons_of_neg (by simp)]
    simp
  case all =>
    intro x hx
    rw [List.mem_reverse] at hx
    simp only [bne_iff_ne, ne_eq]
    exact fun hxe => hb (hxe ▸ hx)

/-- C6: `generate_output_key` strips the last `'.'`-delimited segment (or
uses the whole key when it has no dot) and wraps the base as
`summaries/<base>_summary.txt`; in particular `"foo/bar.txt"` maps to
`"summaries/foo/bar_summary.txt"` and `"noext"` to
`"summaries/noext_summary.txt"`. -/
theorem generate_output_key_spec :
    (∀ k : String, '.' ∉ k.data →
        generate_output_key k = "summaries/" ++ k ++ "_summary.txt") ∧
    (∀ a b : List Char, '.' ∉ b →
        generate_output_key (String.mk (a ++ '.' :: b)) =
          "summaries/" ++ String.mk a ++ "_summary.txt") ∧
    generate_output_key "foo/bar.txt" = "summaries/foo/bar_summary.txt" ∧
    generate_output_key "noext" = "summaries/noext_summary.txt" := by
  refine ⟨fun k hk => ?_, fun a b hb => ?_, rfl, rfl⟩
  · rw [generate_output_key, stripLastExt, if_neg hk]
  · rw [generate_output_key]
    show "summaries/" ++ String.mk (stripLastExt (a ++ '.' :: b)) ++ "_summary.txt" = _
    rw [stripLastExt_dotted a b hb]

/-- C6 witness: the concrete key `"dir/f.wav"` strips to
`"summaries/dir/f_summary.txt"` via both general clauses' shapes. -/
theorem generate_output_key_spec_witness :
    generate_output_key "noext2" = "summaries/noext2_summary.txt" ∧
    generate_output_key (String.mk (['d', 'i', 'r', '/', 'f'] ++ '.' :: ['w', 'a', 'v'])) =
      "summaries/" ++ String.mk ['d', 'i', 'r', '/', 'f'] ++ "_summary.txt" :=
  ⟨generate_output_key_spec.1 "noext2" (by decide),
   generate_output_key_spec.2.1 ['d', 'i', 'r', '/', 'f'] ['w', 'a', 'v'] (by decide)⟩

/-! ## S3 event parsing (`parse_s3_event`, lines 70-81) -/

/-- Value of a hex digit, as accepted by `urllib.parse.unquote`. -/
def hexVal (c : Char) : Option Nat :=
  if '0' ≤ c ∧ c ≤ '9' then some (c.toNat - 48)
  else if 'a' ≤ c ∧ c ≤ 'f' then some (c.toNat - 87)
  else if 'A' ≤ c ∧ c ≤ 'F' then some (c.toNat - 55)
  else none

/-- `urllib.parse.unquote_plus` on the characters of a key: `'+'` becomes a
space, `%XX` with two hex digits becomes the character with that code, an
invalid `%` sequence is kept verbatim.  (Modelled per character: multi-byte
UTF-8 percent sequences, which no claim exercises, are out of scope.) -/
def unquotePlusChars : List Char → List Char
  | [] => []
  | '+' :: rest => ' ' :: unquotePlusChars rest
  | '%' :: h₁ :: h₂ :: rest =>
      match hexVal h₁, hexVal h₂ with
      | some a, some b => Char.ofNat (16 * a + b) :: unquotePlusChars rest
      | _, _ => '%' :: unquotePlusChars (h₁ :: h₂ :: rest)
  | c :: rest => c :: unquotePlusChars rest

/-- `urllib.parse.unquote_plus` on a string. -/
def unquote_plus (s : String) : String :=
  String.mk (unquotePlusChars s.data)

/-- Python subscript `j[k]` with a string key: dict lookup (`KeyError` when
the key is missing), `TypeError` on the other types. -/
def pyGetItemStr (j : Json) (k : String) : Except PyError Json :=
  match j with
  | .obj fields =>
      match jsonLookup fields k with
      | some v => .ok v
      | none => .error (.keyError k)
  | .arr _ => .error (.typeError "list indices must be integers or slices, not str")
  | .str _ => .error (.typeError "string indices must be integers")
  | other => .error (.typeError ("\x27" ++ typeName other ++ "\x27 object is not subscriptable"))

/-- Python subscript `j[0]`: list head (`IndexError` when empty), a dict
raises `KeyError(0)`, a string yields its first character, the other types
raise `TypeError`. -/
def pyGetItemZero (j : Json) : Except PyError Json :=
  match j with
  | .arr (v :: _) => .ok v
  | .arr [] => .error (.indexError "list index out of range")
  | .obj _ => .error (.keyError "0")
  | .str s =>
      match s.data with
      | c :: _ => .ok (.str (String.mk [c]))
      | [] => .error (.indexError "string index out of range")
  | other => .error (.typeError ("\x27" ++ typeName other ++ "\x27 object is not subscriptable"))

/-- `urllib.parse.unquote_plus(x)` applied to a JSON value: only a string
has the `.replace` method the implementation starts with. -/
def pyUnquotePlus (j : Json) : Except PyError String :=
  match j with
  | .str s => .ok (unquote_plus s)
  | other => .error (.attributeError
      ("\x27" ++ typeName other ++ "\x27 object has no attribute \x27replace\x27"))

/-- The body of `parse_s3_event`'s `try` block:
`event['Records'][0]['s3']`, then `['bucket']['name']` (returned verbatim)
and `urllib.parse.unquote_plus` of `['object']['key']`. -/
def parseS3EventTry (event : Json) : Except PyError (Json × String) := do
  let records ← pyGetItemStr event "Records"
  let record0 ← pyGetItemZero records
  let s3Record ← pyGetItemStr record0 "s3"
  let bucket ← pyGetItemStr s3Record "bucket"
  let bucketName ← pyGetItemStr bucket "name"
  let objectPart ← pyGetItemStr s3Record "object"
  let keyJson ← pyGetItemStr objectPart "key"
  let objectKey ← pyUnquotePlus keyJson
  return (bucketName, objectKey)

/-- `parse_s3_event`: the `except (KeyError, IndexError)` clause re-raises
those as `ValueError(f"Invalid S3 event format: {str(e)}")`; anything else
propagates unchanged. -/
def parse_s3_event (event : Json) : Except PyError (Json × String) :=
  match parseS3EventTry event with
  | .ok v => .ok v
  | .error e =>
      match e with
      | .keyError k => .error (.valueError ("Invalid S3 event format: " ++ pyErrStr (.keyError k)))
      | .indexError m => .error (.valueError ("Invalid S3 event format: " ++ pyErrStr (.indexError m)))
      | other => .error other

/-- A well-formed S3 notification record carrying the given bucket name and
(undecoded) object key. -/
def mkS3Record (bucket key : String) : Json :=
  Json.obj [("s3", Json.obj
    [("bucket", Json.obj [("name", Json.str bucket)]),
     ("object", Json.obj [("key", Json.str key)])])]

/-- An S3 notification event with the given list of records. -/
def mkS3Event (records : List Json) : Json :=
  Json.obj [("Records", Json.arr records)]

/-- C7 counterexample: on a well-formed event whose first record has bucket
name `"my+bucket"` and key `"my+key.txt"`, `parse_s3_event` returns the
bucket name verbatim, not its URL-decoded form `"my bucket"` — so the claim
that the bucket name is URL-decoded fails at this input. -/
theorem parse_s3_event_bucket_not_decoded :
    parse_s3_event (mkS3Event [mkS3Record "my+bucket" "my+key.txt"]) =
      .ok (Json.str "my+bucket", "my key.txt") ∧
    unquote_plus "my+bucket" = "my bucket" ∧
    parse_s3_event (mkS3Event [mkS3Record "my+bucket" "my+key.txt"]) ≠
      .ok (Json.str (unquote_plus "my+bucket"), unquote_plus "my+key.txt") := by
  refine ⟨rfl, rfl, fun h => ?_⟩
  have e1 : parse_s3_event (mkS3Event [mkS3Record "my+bucket" "my+key.txt"]) =
      Except.ok (Json.str "my+bucket", "my key.txt") := rfl
  have e2 : (Except.ok (Json.str (unquote_plus "my+bucket"), unquote_plus "my+key.txt") :
      Except PyError (Json × String)) =
      Except.ok (Json.str "my bucket", "my key.txt") := rfl
  rw [e1, e2] at h
  have h1 : (Json.str "my+bucket", ("my key.txt" : String)) =
      (Json.str "my bucket", ("my key.txt" : String)) := Except.ok.inj h
  have h2 : Json.str "my+bucket" = Json.str "my bucket" := congrArg Prod.fst h1
  exact absurd (Json.str.inj h2) (by decide)

/-- C7 (amended): for every event payload whose first record is well formed,
`parse_s3_event` extracts exactly the first record's bucket name — verbatim,
with no URL-decoding — and the first record's URL-decoded object key (plus
signs decoding to spaces); records after the first are ignored. -/
theorem parse_s3_event_first_record (bucket key : String) (rest : List Json) :
    parse_s3_event (mkS3Event (mkS3Record bucket key :: rest)) =
      .ok (Json.str bucket, unquote_plus key) := rfl

/-! ## Orchestrator (`lambda_handler`, lines 24-68)

The handler's external collaborators are collected in a `SummarizerEnv`:
the module-level configuration read from the environment at import time, the
S3 client, the RunPod submit endpoint, and the sequence of status-request
outcomes used by the polling loop. -/

/-- Process configuration and external collaborators of one invocation. -/
structure SummarizerEnv where
  /-- whether `RUNPOD_API_KEY` is set (truthy). -/
  apiKeySet : Bool
  /-- whether `RUNPOD_API_ENDPOINT` is set (truthy). -/
  endpointSet : Bool
  /-- `OUTPUT_BUCKET` (default `"summaries"`). -/
  outputBucket : String
  /-- `MAX_POLLING_ATTEMPTS` (default 20). -/
  maxAttempts : Nat
  /-- `get_transcript_from_s3`: the decoded UTF-8 body of `get_object`, or
  the `ClientError` the S3 call raises. -/
  getObject : Json → String → Except PyError String
  /-- the HTTP part of `submit_job_to_runpod` applied to the prompt text:
  the job id, or the error the call raises (`RequestException`, or
  `ValueError` when the response lacks an id field). -/
  submitHttp : String → Except PyError String
  /-- the status-request outcomes consumed by `poll_runpod_job`. -/
  pollSteps : Nat → PollStep
  /-- `upload_summary_to_s3`'s `put_object`, or the `ClientError` it
  raises. -/
  putObject : String → String → String → Except PyError Unit

/-- `submit_job_to_runpod` (lines 96-150): config checks, then the HTTP
submit call. -/
def submit_job_to_runpod (env : SummarizerEnv) (text : String) : Except PyError String :=
  if !env.apiKeySet then .error (.valueError "Runpod API key is not set.")
  else if !env.endpointSet then .error (.valueError "Runpod API endpoint is not set.")
  else env.submitHttp text

/-- Python `str.isspace()` membership for the characters `str.strip()`
removes (the ASCII whitespace set; no claim involves Unicode spaces). -/
def pyIsSpace (c : Char) : Bool :=
  c = ' ' ∨ c = '\t' ∨ c = '\n' ∨ c = '\r' ∨ c = '\x0b' ∨ c = '\x0c'

/-- Python `not transcript_text.strip()`: true exactly when every character
is whitespace. -/
def pyStripIsEmpty (s : String) : Bool :=
  s.data.all pyIsSpace

/-- Converting the polling loop's outcome back into the value returned or
the exception raised by `poll_runpod_job` (messages as in lines 189 and
203). -/
def pollOutcomeToExcept (jobId : String) (maxAttempts : Nat) :
    PollOutcome → Except PyError Json
  | .returned v => .ok v
  | .jobFailed detail => .error (.exception ("Runpod job failed: " ++ pyStr detail))
  | .timedOut => .error (.timeoutError
      ("Polling for Runpod job " ++ jobId ++ " timed out after " ++
       toString maxAttempts ++ " attempts."))
  | .pyError e => .error e

/-- A non-string summary fails before the upload: `len(summary)` (line 43)
raises `TypeError` on sizeless values, and `summary.encode` (line 229)
raises `AttributeError` on dicts and lists. -/
def summaryToStr : Json → Except PyError String
  | .str s => .ok s
  | .obj _ => .error (.attributeError "\x27dict\x27 object has no attribute \x27encode\x27")
  | .arr _ => .error (.attributeError "\x27list\x27 object has no attribute \x27encode\x27")
  | other => .error (.typeError
      ("object of type \x27" ++ typeName other ++ "\x27 has no len()"))

/-- The `try` block of `lambda_handler` (lines 26-59): the five sequential
stages.  The second component records whether `submit_job_to_runpod` was
invoked.  On success the result carries the parsed bucket, the decoded key
and the derived output key — everything the 200 envelope mentions. -/
def runStages (env : SummarizerEnv) (event : Json) :
    Except PyError (Json × String × String) × Bool :=
  match parse_s3_event event with
  | .error e => (.error e, false)
  | .ok (bucketName, objectKey) =>
    match env.getObject bucketName objectKey with
    | .error e => (.error e, false)
    | .ok transcript =>
      if pyStripIsEmpty transcript then
        (.error (.valueError "Transcript file is empty."), false)
      else
        match submit_job_to_runpod env transcript with
        | .error e => (.error e, true)
        | .ok jobId =>
          let pollResult := poll_runpod_job env.pollSteps env.maxAttempts
          match pollOutcomeToExcept jobId env.maxAttempts pollResult.outcome with
          | .error e => (.error e, true)
          | .ok summary =>
            match summaryToStr summary with
            | .error e => (.error e, true)
            | .ok summaryText =>
              let outputKey := generate_output_key objectKey
              match env.putObject env.outputBucket outputKey summaryText with
              | .error e => (.error e, true)
              | .ok _ => (.ok (bucketName, objectKey, outputKey), true)

/-- The response envelope `{statusCode, body}` with `body` a JSON string. -/
structure Envelope where
  statusCode : Nat
  body : String
deriving DecidableEq, Repr

/-- The 200 envelope of lines 52-59. -/
def successEnvelope (env : SummarizerEnv) (bucketName : Json)
    (objectKey outputKey : String) : Envelope :=
  ⟨200, dumps (Json.obj
    [("message", Json.str "Summary generated successfully"),
     ("input_file", Json.str ("s3://" ++ pyStr bucketName ++ "/" ++ objectKey)),
     ("output_file", Json.str ("s3://" ++ env.outputBucket ++ "/" ++ outputKey))])⟩

/-- The 500 envelope of lines 60-68, carrying `str(e)`. -/
def errorEnvelope (e : PyError) : Envelope :=
  ⟨500, dumps (Json.obj
    [("message", Json.str "Error processing file"),
     ("error", Json.str (pyErrStr e))])⟩

/-- `lambda_handler`: run the staged `try` block; `except Exception`
converts any stage's error into the 500 envelope. -/
def lambda_handler (env : SummarizerEnv) (event : Json) : Envelope :=
  match (runStages env event).1 with
  | .ok (bucketName, objectKey, outputKey) =>
      successEnvelope env bucketName objectKey outputKey
  | .error e => errorEnvelope e

/-- C8: when the fetched transcript is whitespace-only, the orchestrator
raises the empty-transcript `ValueError` before the job-submission stage:
`submit_job_to_runpod` is never invoked and the handler returns the 500
envelope carrying that error. -/
theorem empty_transcript_fails_before_submit (env : SummarizerEnv) (event : Json)
    (bucketName : Json) (objectKey transcript : String)
    (hparse : parse_s3_event event = .ok (bucketName, objectKey))
    (hget : env.getObject bucketName objectKey = .ok transcript)
    (hws : pyStripIsEmpty transcript = true) :
    (runStages env event).2 = false ∧
    lambda_handler env event =
      errorEnvelope (.valueError "Transcript file is empty.") := by
  have hrs : runStages env event =
      (.error (.valueError "Transcript file is empty."), false) := by
    rw [runStages, hparse]
    simp only [hget, hws, if_true]
  constructor
  · rw [hrs]
  · rw [lambda_handler, hrs]

/-- Environment whose S3 read produces a whitespace-only transcript. -/
def whitespaceEnv : SummarizerEnv where
  apiKeySet := true
  endpointSet := true
  outputBucket := "summaries"
  maxAttempts := 3
  getObject := fun _ _ => .ok "  \t\n"
  submitHttp := fun _ => .ok "job-1"
  pollSteps := fun _ => PollStep.response runningBody
  putObject := fun _ _ _ => .ok ()

/-- C8 witness: a whitespace-only transcript yields the 500 envelope for the
empty-transcript error with the submit stage never reached. -/
theorem empty_transcript_fails_before_submit_witness :
    (runStages whitespaceEnv (mkS3Event [mkS3Record "b" "k.txt"])).2 = false ∧
    lambda_handler whitespaceEnv (mkS3Event [mkS3Record "b" "k.txt"]) =
      errorEnvelope (.valueError "Transcript file is empty.") :=
  empty_transcript_fails_before_submit whitespaceEnv
    (mkS3Event [mkS3Record "b" "k.txt"]) (Json.str "b") "k.txt" "  \t\n"
    rfl rfl (by decide)

/-- C9: `lambda_handler` always returns a response envelope — status 200
with the input and output location strings when every stage succeeds, and
status 500 whose body carries `str(e)` of the failing stage's error
otherwise; no exception escapes. -/
theorem handler_always_returns_envelope (env : SummarizerEnv) (event : Json) :
    ((lambda_handler env event).statusCode = 200 ∨
     (lambda_handler env event).statusCode = 500) ∧
    (∀ bucketName objectKey outputKey,
        (runStages env event).1 = .ok (bucketName, objectKey, outputKey) →
        lambda_handler env event =
          successEnvelope env bucketName objectKey outputKey) ∧
    (∀ e, (runStages env event).1 = .error e →
        lambda_handler env event = errorEnvelope e) := by
  refine ⟨?_, fun b k o h => ?_, fun e h => ?_⟩
  · cases h : (runStages env event).1 with
    | error e =>
      right
      rw [lambda_handler, h]
      rfl
    | ok v =>
      left
      obtain ⟨b, k, o⟩ := v
      rw [lambda_handler, h]
      rfl
  · rw [lambda_handler, h]
  · rw [lambda_handler, h]

/-- Environment for a fully successful run: non-empty transcript, submit
returns a job id, the first status request answers `COMPLETED` with output
`{"text": "Hello!"}`, and the upload succeeds. -/
def happyEnv : SummarizerEnv where
  apiKeySet := true
  endpointSet := true
  outputBucket := "summaries"
  maxAttempts := 3
  getObject := fun _ _ => .ok "hello world"
  submitHttp := fun _ => .ok "job-1"
  pollSteps := fun _ =>
    PollStep.response (completedBody (Json.obj [("text", Json.str "Hello!")]))
  putObject := fun _ _ _ => .ok ()

/-- C9 witness: a fully successful run returns the 200 envelope with both
location strings, and a malformed event returns the 500 envelope carrying
the error's description. -/
theorem handler_always_returns_envelope_witness :
    lambda_handler happyEnv (mkS3Event [mkS3Record "b" "k.txt"]) =
      successEnvelope happyEnv (Json.str "b") "k.txt" "summaries/k_summary.txt" ∧
    lambda_handler happyEnv (Json.obj []) =
      errorEnvelope (.valueError "Invalid S3 event format: \x27Records\x27") :=
  ⟨(handler_always_returns_envelope happyEnv (mkS3Event [mkS3Record "b" "k.txt"])).2.1
      (Json.str "b") "k.txt" "summaries/k_summary.txt" rfl,
   (handler_always_returns_envelope happyEnv (Json.obj [])).2.2
      (.valueError "Invalid S3 event format: \x27Records\x27") rfl⟩
